import Mathlib

/-!
Shallow embedding of the collate SQL-generation engine (src/collate/collate.py).

The code builds SQL statement text for time-windowed aggregate feature
tables.  Aggregate models one or more aggregate columns; SpacetimeAggregation
models the plan generating per-(group, date) SELECTs, per-group
CREATE/DROP/INDEX statements, and one final joined CREATE TABLE statement.

Python dictionaries (insertion-ordered) are modelled as association lists;
generator/iterator results as eager lists; exceptions as Except values.
-/

namespace Collate

/-- A Python value that may be a single string or a list of strings
(the code accepts either for quantities, functions and names). -/
inductive StrOrList where
  | scalar (s : String)
  | coll (l : List String)
deriving DecidableEq, Repr

/-- make_list from collate.py: wrap a scalar into a one-element list,
pass a list through unchanged. -/
def make_list : StrOrList → List String
  | .scalar s => [s]
  | .coll l => l

/-- Python's replace of a single-character pattern by the empty string
removes every occurrence of that character: modelled as a character
filter (kept structurally recursive so terms evaluate in the kernel). -/
def removeChar (c : Char) (s : String) : String :=
  String.mk (s.data.filter (fun x => x ≠ c))

/-- to_sql_name from collate.py: name.replace of the double-quote
character by the empty string, i.e. strip double-quote characters. -/
def to_sql_name (name : String) : String :=
  removeChar '"' name

/-- itertools.product of two lists, in Python iteration order
(first argument major). -/
def listProduct {α β : Type} : List α → List β → List (α × β)
  | [], _ => []
  | x :: xs, ys => ys.map (fun y => (x, y)) ++ listProduct xs ys

/-- A generated SQL column: a rendered expression, and an optional label.
Columns produced by Aggregate.get_columns always carry a label;
a raw string column (e.g. the bare group expression) carries none. -/
structure Column where
  expr : String
  label : Option String
deriving DecidableEq, Repr

/-- Aggregate (collate.py lines 38-91): one or more SQL aggregate columns.
The fields are the normalized collections stored by its constructor. -/
structure Aggregate where
  quantities : List String
  functions : List String
  quantity_names : List String
deriving DecidableEq, Repr

/-- Aggregate.__init__ (collate.py lines 42-61): normalize quantity and
function with make_list; when a name argument is given its normalized
length must match quantities, else a ValueError is raised; when omitted,
names default to the quantities with double quotes stripped. -/
def Aggregate.build (quantity function : StrOrList) (name : Option StrOrList) :
    Except String Aggregate :=
  let quantities := make_list quantity
  let functions := make_list function
  match name with
  | some nm =>
      let quantity_names := make_list nm
      if quantity_names.length ≠ quantities.length then
        Except.error "Name length doesn't match quantity length"
      else
        Except.ok ⟨quantities, functions, quantity_names⟩
  | none =>
      Except.ok ⟨quantities, functions, quantities.map (fun x => removeChar '"' x)⟩

/-- The single labeled column Aggregate.get_columns renders for one
(function, quantity, name) combination: the function applied to the
quantity, wrapped in CASE WHEN when a filter predicate is given, labeled
with prefix, name and function joined as in the name template and passed
through to_sql_name. -/
def columnOf (when : Option String) (pfxStr f q n : String) : Column :=
  let column := match when with
    | none => f ++ "(" ++ q ++ ")"
    | some w => f ++ "(CASE WHEN " ++ w ++ " THEN " ++ q ++ " END)"
  let name := pfxStr ++ n ++ "_" ++ f
  ⟨column, some (to_sql_name name)⟩

/-- Aggregate.get_columns (collate.py lines 63-91): for every combination,
function major, of a function and a zipped (quantity, name) pair, yield
one labeled column. A missing prefix defaults to the empty string. -/
def Aggregate.get_columns (a : Aggregate) (when : Option String)
    (pfx : Option String) : List Column :=
  let pfxStr := pfx.getD ""
  (listProduct a.functions (a.quantities.zip a.quantity_names)).map
    (fun fp => columnOf when pfxStr fp.1 fp.2.1 fp.2.2)

/-- A generated SELECT statement: the ordered column list, the FROM
relation, an optional WHERE clause and the GROUP BY expressions
(as built by ex.select / ex.Select in collate.py). -/
structure Select where
  columns : List Column
  from_obj : String
  whereClause : Option String
  group_by : List String
deriving DecidableEq, Repr

/-- A (possibly compound) select built by chaining union_all, as
functools.reduce produces in get_creates: left-nested UNION ALLs over
the per-date selects. -/
inductive SelectUnion where
  | base (s : Select)
  | union_all (u : SelectUnion) (s : Select)
deriving DecidableEq, Repr

/-- The per-date selects a SelectUnion combines, in order. -/
def SelectUnion.toList : SelectUnion → List Select
  | .base s => [s]
  | .union_all u s => u.toList ++ [s]

/-- functools.reduce of union_all over a list of selects: raises on an
empty list, otherwise folds from the left. -/
def reduce_union_all : List Select → Except String SelectUnion
  | [] => Except.error "reduce() of empty sequence with no initial value"
  | s :: rest => Except.ok (rest.foldl SelectUnion.union_all (SelectUnion.base s))

/-- CreateTableAs from collate.py (lines 19-31): compiled as
CREATE TABLE name AS query. -/
structure CreateTableAs where
  name : String
  query : SelectUnion
deriving DecidableEq, Repr

/-- SpacetimeAggregation (collate.py lines 94-260). The field pfx models
the Python attribute holding the column-name/table-name front part
(default: the from_obj name). group_intervals is the insertion-ordered
dictionary of group expression to interval list. -/
structure SpacetimeAggregation where
  aggregates : List Aggregate
  group_intervals : List (String × List String)
  from_obj : String
  dates : List String
  pfx : String
  suffix : String
  date_column : String
deriving DecidableEq, Repr

/-- SpacetimeAggregation.__init__ (collate.py lines 95-123): store the
configuration; a falsy (absent or empty) option falls back to its
default (from_obj, "aggregation", "date" respectively). -/
def SpacetimeAggregation.build (aggregates : List Aggregate)
    (group_intervals : List (String × List String)) (from_obj : String)
    (dates : List String) (pfx suffix date_column : Option String) :
    SpacetimeAggregation :=
  { aggregates, group_intervals, from_obj, dates,
    pfx := match pfx with
      | some s => if s = "" then from_obj else s
      | none => from_obj,
    suffix := match suffix with
      | some s => if s = "" then "aggregation" else s
      | none => "aggregation",
    date_column := match date_column with
      | some s => if s = "" then "date" else s
      | none => "date" }

/-- self.groups = group_intervals.keys() (collate.py line 119). -/
def SpacetimeAggregation.groups (st : SpacetimeAggregation) : List String :=
  st.group_intervals.map Prod.fst

/-- SpacetimeAggregation._get_aggregates_sql (collate.py lines 125-144):
for an interval other than "all" build the window predicate, compute the
column-name front part from the plan, group and interval (spaces removed),
and chain every Aggregate's columns. -/
def SpacetimeAggregation._get_aggregates_sql (st : SpacetimeAggregation)
    (interval date group : String) : List Column :=
  let when : Option String :=
    if interval ≠ "all" then
      some ("'" ++ date ++ "' <= " ++ st.date_column ++ " + interval '"
            ++ interval ++ "'")
    else
      none
  let pfxStr := st.pfx ++ "_" ++ group ++ "_" ++ removeChar ' ' interval ++ "_"
  (st.aggregates.map (fun a => a.get_columns when (some pfxStr))).flatten

/-- The Select built by the inner loop of get_selects for one group and
one date (collate.py lines 158-172). -/
def SpacetimeAggregation.select_for_date (st : SpacetimeAggregation)
    (group : String) (intervals : List String) (date : String) : Select :=
  { columns := ⟨group, none⟩ ::
        ⟨"'" ++ date ++ "'::date", some "date"⟩ ::
        (intervals.map (fun i => st._get_aggregates_sql i date group)).flatten,
    from_obj := st.from_obj,
    whereClause := some (st.date_column ++ " < '" ++ date ++ "'"),
    group_by := [group] }

/-- SpacetimeAggregation.get_selects (collate.py lines 146-174): one list
of per-date selects per group, in group_intervals order. -/
def SpacetimeAggregation.get_selects (st : SpacetimeAggregation) :
    List (String × List Select) :=
  st.group_intervals.map (fun gi =>
    (gi.1, st.dates.map (fun date => st.select_for_date gi.1 gi.2 date)))

/-- SpacetimeAggregation._get_table_name (collate.py lines 176-180):
strip quote characters from "(pfx)_(group)" and re-quote the whole. -/
def SpacetimeAggregation._get_table_name (st : SpacetimeAggregation)
    (group : String) : String :=
  "\"" ++ to_sql_name (st.pfx ++ "_" ++ group) ++ "\""

/-- SpacetimeAggregation.get_creates (collate.py lines 182-202): use
get_selects() when the argument is falsy; per group, reduce the per-date
selects with union_all and wrap in a CreateTableAs named by
_get_table_name. -/
def SpacetimeAggregation.get_creates (st : SpacetimeAggregation)
    (selects : Option (List (String × List Select))) :
    Except String (List (String × CreateTableAs)) :=
  let sel := match selects with
    | some s => if s.isEmpty then st.get_selects else s
    | none => st.get_selects
  sel.mapM (fun gs => do
    let u ← reduce_union_all gs.2
    pure (gs.1, (⟨st._get_table_name gs.1, u⟩ : CreateTableAs)))

/-- SpacetimeAggregation.get_drops (collate.py lines 204-213). -/
def SpacetimeAggregation.get_drops (st : SpacetimeAggregation) :
    List (String × String) :=
  st.groups.map (fun group =>
    (group, "DROP TABLE IF EXISTS " ++ st._get_table_name group ++ ";"))

/-- SpacetimeAggregation.get_indexes (collate.py lines 215-225). -/
def SpacetimeAggregation.get_indexes (st : SpacetimeAggregation) :
    List (String × String) :=
  st.groups.map (fun group =>
    (group, "CREATE INDEX ON " ++ st._get_table_name group ++ " ("
            ++ group ++ ", date);"))

/-- SpacetimeAggregation.get_join_table (collate.py lines 227-232):
select the group expressions from the source, grouped by all of them. -/
def SpacetimeAggregation.get_join_table (st : SpacetimeAggregation) : Select :=
  { columns := st.groups.map (fun g => ⟨g, none⟩),
    from_obj := st.from_obj,
    whereClause := none,
    group_by := st.groups }

/-- Modelled from the spec: the external SQL-expression library (declared
out of scope) renders a Select clause object to text when get_create
interpolates str(self.get_join_table()); the core claims depend only on
the structure of the Select, not on this text. -/
def renderSelect (s : Select) : String :=
  "SELECT " ++ String.intercalate ", "
      (s.columns.map (fun c => match c.label with
        | none => c.expr
        | some l => c.expr ++ " AS " ++ l)) ++
    " \nFROM " ++ s.from_obj ++
    (match s.whereClause with
      | none => ""
      | some w => " \nWHERE " ++ w) ++
    " GROUP BY " ++ String.intercalate ", " s.group_by

/-- SpacetimeAggregation.get_create (collate.py lines 234-252): a falsy
join_table argument falls back to the rendered get_join_table aliased t1;
cross join an unnest date spine aliased t2; left join every per-group
table using the group and date; wrap in CREATE TABLE pfx_suffix AS. -/
def SpacetimeAggregation.get_create (st : SpacetimeAggregation)
    (join_table : Option String) : String :=
  let jt := match join_table with
    | some s => if s = "" then "(" ++ renderSelect st.get_join_table ++ ") t1" else s
    | none => "(" ++ renderSelect st.get_join_table ++ ") t1"
  let name := st.pfx ++ "_" ++ st.suffix
  let query := "SELECT * FROM " ++ jt ++
      "\nCROSS JOIN (select unnest('\x7b" ++ String.intercalate "," st.dates ++
      "\x7d'::date[]) as date) t2\n"
  let query := query ++ String.join (st.groups.map (fun group =>
      "LEFT JOIN " ++ st._get_table_name group ++ " USING (" ++ group ++ ", date)"))
  "CREATE TABLE " ++ name ++ " AS (" ++ query ++ ");"

/-- SpacetimeAggregation.get_drop (collate.py lines 254-260): note the
name is used verbatim, with no quote stripping or quoting, and there is
no trailing semicolon. -/
def SpacetimeAggregation.get_drop (st : SpacetimeAggregation) : String :=
  let name := st.pfx ++ "_" ++ st.suffix
  "DROP TABLE IF EXISTS " ++ name

/-- Total value of reduce_union_all on a nonempty list (proof helper:
its value on the empty list is never used, reduce_union_all raises there). -/
def reduce_union_all1 : List Select → SelectUnion
  | [] => SelectUnion.base ⟨[], "", none, []⟩
  | s :: rest => rest.foldl SelectUnion.union_all (SelectUnion.base s)

/-- The example aggregate of the spec's end-to-end example: quantity
"amount", functions sum and count, name "amount". -/
def exAggregate : Aggregate :=
  ⟨["amount"], ["sum", "count"], ["amount"]⟩

/-- The example plan of the spec's end-to-end example. -/
def exPlan : SpacetimeAggregation :=
  { aggregates := [exAggregate],
    group_intervals := [("id", ["1 month", "all"])],
    from_obj := "events",
    dates := ["2016-01-01", "2016-02-01"],
    pfx := "events",
    suffix := "aggregation",
    date_column := "date" }

/-- A plan whose naming parts contain a double-quote character. -/
def exQuotedPlan : SpacetimeAggregation :=
  { aggregates := [exAggregate],
    group_intervals := [("id", ["all"])],
    from_obj := "events",
    dates := ["2016-01-01"],
    pfx := "my\"pf",
    suffix := "aggregation",
    date_column := "date" }

/-- A plan with groups but no reference dates. -/
def exNoDatesPlan : SpacetimeAggregation :=
  { aggregates := [exAggregate],
    group_intervals := [("id", ["all"])],
    from_obj := "events",
    dates := [],
    pfx := "events",
    suffix := "aggregation",
    date_column := "date" }

section Lemmas

theorem listProduct_length {α β : Type} (xs : List α) (ys : List β) :
    (listProduct xs ys).length = xs.length * ys.length := by
  induction xs with
  | nil => simp [listProduct]
  | cons x xs ih =>
      simp [listProduct, ih, Nat.succ_mul, Nat.add_comm]

theorem listProduct_getElem? {α β : Type} (xs : List α) (ys : List β)
    (i j : Nat) (x : α) (y : β) (hx : xs[i]? = some x) (hy : ys[j]? = some y) :
    (listProduct xs ys)[i * ys.length + j]? = some (x, y) := by
  induction xs generalizing i with
  | nil => simp at hx
  | cons a xs ih =>
      cases i with
      | zero =>
          simp only [List.getElem?_cons_zero, Option.some.injEq] at hx
          subst hx
          have hj : j < ys.length := (List.getElem?_eq_some_iff.mp hy).1
          have hj' : j < (ys.map (fun y => (a, y))).length := by
            simpa using hj
          rw [Nat.zero_mul, Nat.zero_add, listProduct,
            List.getElem?_append, if_pos hj', List.getElem?_map, hy]
          rfl
      | succ i =>
          have harith : (i + 1) * ys.length + j =
              ys.length + (i * ys.length + j) := by
            rw [Nat.succ_mul]; omega
          rw [harith, listProduct, List.getElem?_append_right (by simp)]
          simp only [List.length_map]
          rw [Nat.add_sub_cancel_left]
          rw [List.getElem?_cons_succ] at hx
          exact ih i hx

theorem mem_listProduct {α β : Type} {xs : List α} {ys : List β} {x : α}
    {y : β} (hx : x ∈ xs) (hy : y ∈ ys) : (x, y) ∈ listProduct xs ys := by
  induction xs with
  | nil => simp at hx
  | cons a xs ih =>
      rcases List.mem_cons.mp hx with h | h
      · subst h
        exact List.mem_append_left _ (List.mem_map.mpr ⟨y, hy, rfl⟩)
      · exact List.mem_append_right _ (ih h)

theorem Aggregate.build_names_length {q f : StrOrList} {nm : Option StrOrList}
    {a : Aggregate} (h : Aggregate.build q f nm = Except.ok a) :
    a.quantity_names.length = a.quantities.length := by
  cases nm with
  | none =>
      simp only [Aggregate.build, Except.ok.injEq] at h
      subst h
      simp
  | some nm =>
      simp only [Aggregate.build] at h
      split at h
      · exact absurd h (by simp)
      · rename_i hlen
        simp only [Except.ok.injEq] at h
        subst h
        simpa using hlen

end Lemmas

/-- C1: for every Aggregate constructed (scalar arguments being treated as
one-element collections), every call to get_columns yields exactly
functions-length times quantities-length labeled columns, enumerated
function-major, with quantities and names paired positionally: the column
at index i * Q + j is built from the i-th function and the j-th
(quantity, name) pair. -/
theorem C1_cross_product_columns (q f : StrOrList) (nm : Option StrOrList)
    (a : Aggregate) (h : Aggregate.build q f nm = Except.ok a)
    (when : Option String) (pfx : Option String) :
    (a.get_columns when pfx).length =
      a.functions.length * a.quantities.length ∧
    ∀ i j fi qj nj, a.functions[i]? = some fi → a.quantities[j]? = some qj →
      a.quantity_names[j]? = some nj →
      (a.get_columns when pfx)[i * a.quantities.length + j]? =
        some (columnOf when (pfx.getD "") fi qj nj) := by
  have hlen := Aggregate.build_names_length h
  have hz : (a.quantities.zip a.quantity_names).length = a.quantities.length := by
    rw [List.length_zip, hlen, min_self]
  constructor
  · simp only [Aggregate.get_columns, List.length_map]
    rw [listProduct_length, hz]
  · intro i j fi qj nj hfi hqj hnj
    have hzip : (a.quantities.zip a.quantity_names)[j]? = some (qj, nj) := by
      simp [List.getElem?_zip_eq_some]
      exact ⟨hqj, hnj⟩
    have hmain := listProduct_getElem? a.functions
      (a.quantities.zip a.quantity_names) i j fi (qj, nj) hfi hzip
    simp only [Aggregate.get_columns, List.getElem?_map]
    rw [← hz, hmain]
    rfl

/-- C1 witness: the example aggregate (2 functions, 1 quantity) yields
2 x 1 columns. -/
theorem C1_cross_product_columns_witness :
    (exAggregate.get_columns none none).length =
      exAggregate.functions.length * exAggregate.quantities.length :=
  (C1_cross_product_columns (.scalar "amount") (.coll ["sum", "count"])
    (some (.scalar "amount")) exAggregate rfl none none).1

/-- C6: constructing an Aggregate fails with the length-mismatch
ValueError exactly when a names argument is supplied whose normalized
length differs from the normalized quantities; with equal lengths it
succeeds, and with names omitted it always succeeds (so no columns exist
on error: an errored construction yields no Aggregate value at all). -/
theorem C6_name_length_invariant (q f : StrOrList) (nm : StrOrList) :
    (Aggregate.build q f (some nm) =
        Except.error "Name length doesn't match quantity length" ↔
      (make_list nm).length ≠ (make_list q).length) ∧
    ((∃ a, Aggregate.build q f (some nm) = Except.ok a) ↔
      (make_list nm).length = (make_list q).length) ∧
    ∃ a, Aggregate.build q f none = Except.ok a := by
  refine ⟨⟨?_, ?_⟩, ⟨?_, ?_⟩, ⟨_, rfl⟩⟩
  · intro h
    by_contra hc
    simp [Aggregate.build, hc] at h
  · intro h
    simp [Aggregate.build, h]
  · rintro ⟨a, ha⟩
    by_contra hc
    simp [Aggregate.build, hc] at ha
  · intro h
    refine ⟨⟨make_list q, make_list f, make_list nm⟩, ?_⟩
    simp [Aggregate.build, h]

/-- C2: _get_aggregates_sql passes no filter predicate exactly when the
interval is "all", otherwise the predicate reference_date plus quote
marks on the left of a le comparison against date_column plus the
interval; the column-name front part is the plan part, the group and the
interval with spaces removed, joined by underscores and ending in an
underscore. -/
theorem C2_window_predicate (st : SpacetimeAggregation)
    (interval date group : String) :
    st._get_aggregates_sql interval date group =
      (st.aggregates.map (fun a => a.get_columns
        (if interval = "all" then none
         else some ("'" ++ date ++ "' <= " ++ st.date_column ++
                    " + interval '" ++ interval ++ "'"))
        (some (st.pfx ++ "_" ++ group ++ "_" ++ removeChar ' ' interval
               ++ "_")))).flatten := by
  by_cases hi : interval = "all" <;>
    simp [SpacetimeAggregation._get_aggregates_sql, hi]

/-- C3: for every configured group, get_selects holds one SELECT per
reference date whose column list is the raw group expression, the date
literal cast to date labeled "date", then the aggregate columns of every
interval of that group; FROM is the plan source, WHERE the strict cutoff
on date_column, GROUP BY the raw group expression. -/
theorem C3_select_shape (st : SpacetimeAggregation) (g : String)
    (ivs : List String) (h : (g, ivs) ∈ st.group_intervals) :
    (g, st.dates.map (fun date =>
      ({ columns := ⟨g, none⟩ ::
            ⟨"'" ++ date ++ "'::date", some "date"⟩ ::
            (ivs.map (fun i => st._get_aggregates_sql i date g)).flatten,
         from_obj := st.from_obj,
         whereClause := some (st.date_column ++ " < '" ++ date ++ "'"),
         group_by := [g] } : Select))) ∈ st.get_selects := by
  simp only [SpacetimeAggregation.get_selects]
  exact List.mem_map.mpr ⟨(g, ivs), h, rfl⟩

/-- C3 witness: instance at the example plan. -/
theorem C3_select_shape_witness :
    ("id", exPlan.dates.map (fun date =>
      ({ columns := ⟨"id", none⟩ ::
            ⟨"'" ++ date ++ "'::date", some "date"⟩ ::
            ((["1 month", "all"] : List String).map
              (fun i => exPlan._get_aggregates_sql i date "id")).flatten,
         from_obj := exPlan.from_obj,
         whereClause := some (exPlan.date_column ++ " < '" ++ date ++ "'"),
         group_by := ["id"] } : Select))) ∈ exPlan.get_selects :=
  C3_select_shape exPlan "id" ["1 month", "all"] (by decide)

/-- The labels of get_columns do not depend on the filter predicate. -/
theorem get_columns_labels_indep (a : Aggregate) (w1 w2 : Option String)
    (pfx : Option String) :
    (a.get_columns w1 pfx).map Column.label =
      (a.get_columns w2 pfx).map Column.label := by
  simp [Aggregate.get_columns, columnOf, List.map_map, Function.comp]

/-- The labels of _get_aggregates_sql do not depend on the date. -/
theorem aggregates_sql_labels_indep (st : SpacetimeAggregation)
    (i d1 d2 g : String) :
    (st._get_aggregates_sql i d1 g).map Column.label =
      (st._get_aggregates_sql i d2 g).map Column.label := by
  simp only [SpacetimeAggregation._get_aggregates_sql]
  rw [List.map_flatten, List.map_flatten, List.map_map, List.map_map]
  congr 1
  apply List.map_congr_left
  intro a _
  simp only [Function.comp]
  exact get_columns_labels_indep a _ _ _

/-- The labels of the flattened per-interval aggregate columns do not
depend on the date. -/
theorem intervals_labels_indep (st : SpacetimeAggregation) (g : String)
    (ivs : List String) (d1 d2 : String) :
    ((ivs.map (fun i => st._get_aggregates_sql i d1 g)).flatten).map
        Column.label =
      ((ivs.map (fun i => st._get_aggregates_sql i d2 g)).flatten).map
        Column.label := by
  rw [List.map_flatten, List.map_flatten, List.map_map, List.map_map]
  congr 1
  apply List.map_congr_left
  intro i _
  simp only [Function.comp]
  exact aggregates_sql_labels_indep st i d1 d2 g

/-- The column labels of the per-date select template do not depend on
the date. -/
theorem select_labels_indep (st : SpacetimeAggregation) (g : String)
    (ivs : List String) (d1 d2 : String) :
    (st.select_for_date g ivs d1).columns.map Column.label =
      (st.select_for_date g ivs d2).columns.map Column.label := by
  simp only [SpacetimeAggregation.select_for_date, List.map_cons]
  rw [intervals_labels_indep st g ivs d1 d2]

/-- C8: any two SELECTs get_selects generates for the same group are
instances of one date-parameterized template (each arises from a
reference date) and agree on column labels (same names in the same
order), FROM and GROUP BY, so they can be unioned. -/
theorem C8_selects_unionable (st : SpacetimeAggregation) (g : String)
    (sels : List Select) (q1 q2 : Select) (hg : (g, sels) ∈ st.get_selects)
    (h1 : q1 ∈ sels) (h2 : q2 ∈ sels) :
    (∃ ivs, (g, ivs) ∈ st.group_intervals ∧
      ∃ d ∈ st.dates, q1 = st.select_for_date g ivs d) ∧
    q1.columns.map Column.label = q2.columns.map Column.label ∧
    q1.from_obj = q2.from_obj ∧
    q1.group_by = q2.group_by := by
  simp only [SpacetimeAggregation.get_selects, List.mem_map] at hg
  obtain ⟨⟨g', ivs⟩, hgi, heq⟩ := hg
  have hgg : g' = g := congrArg Prod.fst heq
  have hss : st.dates.map (fun date => st.select_for_date g' ivs date) = sels :=
    congrArg Prod.snd heq
  subst hgg
  subst hss
  obtain ⟨d1, hd1, rfl⟩ := List.mem_map.mp h1
  obtain ⟨d2, hd2, rfl⟩ := List.mem_map.mp h2
  exact ⟨⟨ivs, hgi, d1, hd1, rfl⟩, select_labels_indep st g' ivs d1 d2,
    rfl, rfl⟩

/-- C8 witness: the two per-date selects of the example plan carry the
same column labels. -/
theorem C8_selects_unionable_witness :
    (exPlan.select_for_date "id" ["1 month", "all"] "2016-01-01").columns.map
        Column.label =
      (exPlan.select_for_date "id" ["1 month", "all"] "2016-02-01").columns.map
        Column.label :=
  (C8_selects_unionable exPlan "id"
    (exPlan.dates.map (fun date =>
      exPlan.select_for_date "id" ["1 month", "all"] date))
    (exPlan.select_for_date "id" ["1 month", "all"] "2016-01-01")
    (exPlan.select_for_date "id" ["1 month", "all"] "2016-02-01")
    (by decide) (by decide) (by decide)).2.1

/-- C9: for a function, a positionally paired (quantity, name) and a name
prefix, get_columns contains the column rendered as the function applied
to the quantity (wrapped in CASE WHEN exactly when a filter predicate is
given), labeled with the prefix, name and function with double-quote
characters stripped. -/
theorem C9_rendered_column (a : Aggregate) (when : Option String)
    (pfx : Option String) (f q n : String) (hf : f ∈ a.functions)
    (hqn : (q, n) ∈ a.quantities.zip a.quantity_names) :
    (⟨(match when with
        | none => f ++ "(" ++ q ++ ")"
        | some w => f ++ "(CASE WHEN " ++ w ++ " THEN " ++ q ++ " END)"),
       some (to_sql_name ((pfx.getD "") ++ n ++ "_" ++ f))⟩ : Column)
      ∈ a.get_columns when pfx := by
  simp only [Aggregate.get_columns]
  exact List.mem_map.mpr ⟨(f, (q, n)), mem_listProduct hf hqn, rfl⟩

/-- C9 witness: a concrete rendered column of the example aggregate,
with and without quote characters in the label parts. -/
theorem C9_rendered_column_witness :
    (⟨"sum(amount)", some "p_amount_sum"⟩ : Column)
      ∈ exAggregate.get_columns none (some "p_") :=
  C9_rendered_column exAggregate none (some "p_") "sum" "amount" "amount"
    (by decide) (by decide)

/-- Folding union_all from the left appends each select in order. -/
theorem foldl_union_all_toList (l : List Select) (u : SelectUnion) :
    (l.foldl SelectUnion.union_all u).toList = u.toList ++ l := by
  induction l generalizing u with
  | nil => simp
  | cons s l ih =>
      simp only [List.foldl_cons]
      rw [ih]
      simp [SelectUnion.toList]

/-- On a nonempty list, reduce_union_all succeeds with its total value. -/
theorem reduce_union_all_eq_ok (l : List Select) (hl : l ≠ []) :
    reduce_union_all l = Except.ok (reduce_union_all1 l) := by
  cases l with
  | nil => exact absurd rfl hl
  | cons s rest => rfl

/-- Reducing a nonempty list with union_all combines exactly its selects,
in order, none dropped and none duplicated. -/
theorem reduce_union_all1_toList (l : List Select) (hl : l ≠ []) :
    (reduce_union_all1 l).toList = l := by
  cases l with
  | nil => exact absurd rfl hl
  | cons s rest =>
      simp only [reduce_union_all1]
      rw [foldl_union_all_toList]
      rfl

/-- mapM over Except succeeds pointwise. -/
theorem mapM_ok {α β : Type} (f : α → Except String β) (g : α → β)
    (l : List α) (h : ∀ a ∈ l, f a = Except.ok (g a)) :
    l.mapM f = Except.ok (l.map g) := by
  induction l with
  | nil => rfl
  | cons a l ih =>
      rw [List.mapM_cons, h a (List.mem_cons_self a l),
        ih (fun x hx => h x (List.mem_cons_of_mem a hx))]
      rfl

/-- With at least one reference date, get_creates with no custom selects
returns one CreateTableAs per group of get_selects. -/
theorem get_creates_none_eq (st : SpacetimeAggregation) (hd : st.dates ≠ []) :
    st.get_creates none = Except.ok (st.get_selects.map (fun gs =>
      (gs.1, ({ name := st._get_table_name gs.1,
                query := reduce_union_all1 gs.2 } : CreateTableAs)))) := by
  simp only [SpacetimeAggregation.get_creates]
  apply mapM_ok
  intro gs hgs
  have hne : gs.2 ≠ [] := by
    simp only [SpacetimeAggregation.get_selects, List.mem_map] at hgs
    obtain ⟨gi, _, heq⟩ := hgs
    have hsnd := congrArg Prod.snd heq
    simp only at hsnd
    rw [← hsnd]
    simpa using hd
  rw [reduce_union_all_eq_ok gs.2 hne]
  rfl

/-- C4 counterexample: for a group with zero reference dates, get_creates
does not produce any CREATE statement at all (reduce of the empty select
list raises), so the claim fails at k equal to zero. -/
theorem C4_counterexample :
    ¬ ∃ l, exNoDatesPlan.get_creates none = Except.ok l := by
  rintro ⟨l, hl⟩
  have hred : exNoDatesPlan.get_creates none =
      Except.error "reduce() of empty sequence with no initial value" := rfl
  rw [hred] at hl
  exact Except.noConfusion hl

/-- C4: with at least one reference date and no custom selects
dictionary, get_creates succeeds and holds, for each configured group,
a CreateTableAs whose table name is the plan part and the group joined
by an underscore, quote-stripped and re-quoted as one identifier, and
whose query chains exactly the per-date selects of that group with
union_all (all dates kept, no de-duplication). -/
theorem C4_creates_union_all (st : SpacetimeAggregation) (g : String)
    (ivs : List String) (hg : (g, ivs) ∈ st.group_intervals)
    (hd : st.dates ≠ []) :
    ∃ l, st.get_creates none = Except.ok l ∧
      (g, ({ name := "\"" ++ to_sql_name (st.pfx ++ "_" ++ g) ++ "\"",
             query := reduce_union_all1 (st.dates.map
               (fun d => st.select_for_date g ivs d)) } : CreateTableAs)) ∈ l ∧
      (reduce_union_all1 (st.dates.map
          (fun d => st.select_for_date g ivs d))).toList =
        st.dates.map (fun d => st.select_for_date g ivs d) ∧
      (reduce_union_all1 (st.dates.map
          (fun d => st.select_for_date g ivs d))).toList.length =
        st.dates.length := by
  have hsel : (g, st.dates.map (fun d => st.select_for_date g ivs d))
      ∈ st.get_selects := by
    simp only [SpacetimeAggregation.get_selects]
    exact List.mem_map.mpr ⟨(g, ivs), hg, rfl⟩
  have hne : st.dates.map (fun d => st.select_for_date g ivs d) ≠ [] := by
    simpa using hd
  refine ⟨_, get_creates_none_eq st hd, ?_,
    reduce_union_all1_toList _ hne, ?_⟩
  · exact List.mem_map.mpr ⟨_, hsel, rfl⟩
  · rw [reduce_union_all1_toList _ hne, List.length_map]

/-- C4 witness: at the example plan, the creates entry for group id
unions its 2 per-date selects. -/
theorem C4_creates_union_all_witness :
    ∃ l, exPlan.get_creates none = Except.ok l ∧
      ("id",
        ({ name := "\"" ++ to_sql_name (exPlan.pfx ++ "_" ++ "id") ++ "\"",
           query := reduce_union_all1 (exPlan.dates.map
             (fun d => exPlan.select_for_date "id" ["1 month", "all"] d))
         } : CreateTableAs)) ∈ l ∧
      (reduce_union_all1 (exPlan.dates.map
          (fun d => exPlan.select_for_date "id" ["1 month", "all"] d))).toList =
        exPlan.dates.map
          (fun d => exPlan.select_for_date "id" ["1 month", "all"] d) ∧
      (reduce_union_all1 (exPlan.dates.map
          (fun d =>
            exPlan.select_for_date "id" ["1 month", "all"] d))).toList.length =
        exPlan.dates.length :=
  C4_creates_union_all exPlan "id" ["1 month", "all"] (by decide) (by decide)

/-- C5: get_create with no join_table override builds the distinct group
combinations subquery (SELECT the group keys FROM the source GROUP BY
the group keys, rendered by the external library and aliased t1), cross
joins it with the unnest date spine aliased t2 holding the literal array
of all reference dates as a column named date, left joins each group's
aggregation table using the group key and date, and wraps everything in
CREATE TABLE plan-part underscore suffix AS. -/
theorem C5_final_create_table (st : SpacetimeAggregation) :
    st.get_create none =
      "CREATE TABLE " ++ (st.pfx ++ "_" ++ st.suffix) ++ " AS (" ++
        ("SELECT * FROM " ++ ("(" ++ renderSelect st.get_join_table ++ ") t1")
          ++ "\nCROSS JOIN (select unnest('\x7b" ++
          String.intercalate "," st.dates ++
          "\x7d'::date[]) as date) t2\n" ++
          String.join (st.groups.map (fun group =>
            "LEFT JOIN " ++ st._get_table_name group ++ " USING (" ++ group ++
            ", date)"))) ++ ");" ∧
    st.get_join_table =
      { columns := st.groups.map (fun g => ⟨g, none⟩),
        from_obj := st.from_obj,
        whereClause := none,
        group_by := st.groups } := by
  exact ⟨rfl, rfl⟩

/-- C7 counterexample: at a plan whose naming part holds a double-quote
character, get_drop renders the final table name verbatim, not
quote-stripped-and-re-quoted as the uniform rule would demand. -/
theorem C7_counterexample :
    exQuotedPlan.get_drop ≠
      "DROP TABLE IF EXISTS " ++
        ("\"" ++ to_sql_name (exQuotedPlan.pfx ++ "_" ++ exQuotedPlan.suffix)
         ++ "\"") := by
  decide

/-- C7 amended: per-group table names are rendered by stripping quote
characters and re-quoting the whole identifier; column labels are
stripped of quote characters but not re-quoted; the final table name
used by get_create and get_drop and the group column of the index
statements are rendered verbatim, with no stripping or quoting. -/
theorem C7_amended_identifier_rendering (st : SpacetimeAggregation)
    (g : String) (when : Option String) (pfxStr f q n : String) :
    st._get_table_name g = "\"" ++ to_sql_name (st.pfx ++ "_" ++ g) ++ "\"" ∧
    st.get_drop = "DROP TABLE IF EXISTS " ++ (st.pfx ++ "_" ++ st.suffix) ∧
    (columnOf when pfxStr f q n).label =
      some (to_sql_name (pfxStr ++ n ++ "_" ++ f)) ∧
    st.get_indexes = st.groups.map (fun group =>
      (group, "CREATE INDEX ON " ++ st._get_table_name group ++ " ("
              ++ group ++ ", date);")) ∧
    ∃ rest, st.get_create none =
      "CREATE TABLE " ++ (st.pfx ++ "_" ++ st.suffix) ++ rest := by
  refine ⟨rfl, rfl, rfl, rfl, ?_⟩
  refine ⟨" AS (" ++
    (("SELECT * FROM " ++ ("(" ++ renderSelect st.get_join_table ++ ") t1")
        ++ "\nCROSS JOIN (select unnest('\x7b" ++
        String.intercalate "," st.dates ++
        "\x7d'::date[]) as date) t2\n" ++
        String.join (st.groups.map (fun group =>
          "LEFT JOIN " ++ st._get_table_name group ++ " USING (" ++ group ++
          ", date)"))) ++ ");"), ?_⟩
  show "CREATE TABLE " ++ (st.pfx ++ "_" ++ st.suffix) ++ " AS (" ++
      ("SELECT * FROM " ++ ("(" ++ renderSelect st.get_join_table ++ ") t1")
        ++ "\nCROSS JOIN (select unnest('\x7b" ++
        String.intercalate "," st.dates ++
        "\x7d'::date[]) as date) t2\n" ++
        String.join (st.groups.map (fun group =>
          "LEFT JOIN " ++ st._get_table_name group ++ " USING (" ++ group ++
          ", date)"))) ++ ");" = _
  rw [String.append_assoc, String.append_assoc]

/-- C10 counterexample: with a configured group but no reference dates,
get_creates raises the reduce-of-empty-sequence error instead of
returning a dictionary keyed by the groups. -/
theorem C10_counterexample :
    exNoDatesPlan.get_creates none =
      Except.error "reduce() of empty sequence with no initial value" := by
  rfl

/-- C10 amended: get_selects, get_drops and get_indexes always return
association lists keyed exactly by group_intervals' keys (also at plans
with no reference dates); get_creates (with no selects argument) does so
too whenever there is at least one reference date — with none and at
least one group it raises instead. All are pure functions of the
unchanged plan configuration. -/
theorem C10_result_keys (st : SpacetimeAggregation) :
    st.get_selects.map Prod.fst = st.group_intervals.map Prod.fst ∧
    st.get_drops.map Prod.fst = st.group_intervals.map Prod.fst ∧
    st.get_indexes.map Prod.fst = st.group_intervals.map Prod.fst ∧
    (st.dates ≠ [] → ∃ l, st.get_creates none = Except.ok l ∧
      l.map Prod.fst = st.group_intervals.map Prod.fst) := by
  refine ⟨?_, ?_, ?_, fun hd => ⟨_, get_creates_none_eq st hd, ?_⟩⟩
  · simp [SpacetimeAggregation.get_selects, List.map_map, Function.comp]
  · simp [SpacetimeAggregation.get_drops, SpacetimeAggregation.groups,
      List.map_map, Function.comp]
  · simp [SpacetimeAggregation.get_indexes, SpacetimeAggregation.groups,
      List.map_map, Function.comp]
  · simp [SpacetimeAggregation.get_selects, List.map_map, Function.comp]

/-- C10 witness: key sets at the plan with a group and no reference
dates — get_selects, get_drops and get_indexes are still keyed by the
configured group there. -/
theorem C10_result_keys_witness :
    exNoDatesPlan.get_selects.map Prod.fst =
      exNoDatesPlan.group_intervals.map Prod.fst ∧
    exNoDatesPlan.get_drops.map Prod.fst =
      exNoDatesPlan.group_intervals.map Prod.fst ∧
    exNoDatesPlan.get_indexes.map Prod.fst =
      exNoDatesPlan.group_intervals.map Prod.fst ∧
    (exNoDatesPlan.dates ≠ [] →
      ∃ l, exNoDatesPlan.get_creates none = Except.ok l ∧
        l.map Prod.fst = exNoDatesPlan.group_intervals.map Prod.fst) :=
  C10_result_keys exNoDatesPlan

end Collate
